import Mathlib

/-!
Verification of the VolumeLinker core (`AudioDeviceManager`, `AudioDevice`)
against its natural-language specification.

The C++ sources are shallowly embedded:

* COM volume handles are modelled by presence flags plus an explicit trace of
  `Event`s (volume/mute writes tagged with target handle and correlation GUID,
  dialog postings, message box, `WM_CLOSE` posting, callback unregistration).
* Fallible platform calls (`Activate`, `RegisterControlChangeNotify`,
  `GetMute`, `GetMasterVolumeLevelScalar`, `SetMasterVolumeLevelScalar`,
  `SetMute`) are resolved by an oracle `Env` giving each call's outcome.
* `float`/`double` scalars are modelled as exact rationals; the slider
  computation `(double)MAX_VOL * f + 0.5` is exact in double precision for
  every `float` input, so the rational model is exact.
* GUIDs are opaque correlation tokens (`Nat`); wide strings are lists of
  character codes (`List Nat`).
-/

/-- Correlation token standing for a COM GUID. -/
abbrev GUIDToken := Nat

/-- A wide string, as its list of character codes. -/
abbrev WStr := List Nat

/-- Which of the two live volume handles a write goes to. -/
inductive Target where
  | master
  | slave
deriving DecidableEq, Repr

/-- Observable side effects of the manager, in program order. -/
inductive Event where
  /-- `SetMasterVolumeLevelScalar(v, &guid)` on the given handle. -/
  | setVolume (t : Target) (v : ℚ) (g : GUIDToken)
  /-- `SetMute(m, &guid)` on the given handle. -/
  | setMute (t : Target) (m : Bool) (g : GUIDToken)
  /-- `_updateDialog(v, m)` posting checkbox and slider updates to an
      attached dialog (the external observer signal). -/
  | dialogUpdate (v : ℚ) (m : Bool)
  /-- The fatal-error `MessageBoxW`. -/
  | msgBox
  /-- `PostMessage(m_hDialog, WM_CLOSE, 0, 0)`: session-termination request. -/
  | postClose
  /-- `UnregisterControlChangeNotify` on the master handle. -/
  | unregister
deriving DecidableEq, Repr

/-- One enumerated rendering endpoint (`AudioDevice`), as constructed in the
enumeration loop of the `AudioDeviceManager` constructor: `itemOffset` is the
discovery position, `id` the endpoint ID string, `name` the friendly name. -/
structure AudioDevice where
  itemOffset : Nat
  id : WStr
  name : WStr
deriving DecidableEq, Repr

/-- The mutable state of `AudioDeviceManager` relevant to the core: exit code,
process GUID, dialog attachment, device catalog, link flag, indices, the two
handle-presence flags, and whether the change-notification subscription on the
master handle is currently registered. -/
structure MgrState where
  exitCode : Int
  processGUID : GUIDToken
  hDialog : Bool
  audioDevices : List AudioDevice
  bLinkActive : Bool
  iMasterDeviceIdx : Int
  iSlaveDeviceIdx : Int
  pMasterEndptVol : Bool
  pSlaveEndptVol : Bool
  subscribed : Bool
deriving DecidableEq, Repr

/-- Oracle for the outcomes of the fallible COM calls made during one
operation of the manager. -/
structure Env where
  activateMasterOk : Bool
  activateSlaveOk : Bool
  registerOk : Bool
  getMuteResult : Option Bool
  getVolumeResult : Option ℚ
  slaveSetVolumeOk : Bool
  slaveSetMuteOk : Bool
  masterSetVolumeOk : Bool
  masterSetMuteOk : Bool
deriving DecidableEq, Repr

/-- The `AUDIO_VOLUME_NOTIFICATION_DATA` fields read by the callback. -/
structure NotificationData where
  guidEventContext : GUIDToken
  fMasterVolume : ℚ
  bMuted : Bool
deriving DecidableEq, Repr

/-- The distinct `std::runtime_error` failures `linkDevices`/`getDevice`
can raise, one per throw site category. -/
inductive LinkError where
  /-- "Cannot link device to itself." -/
  | selfLink
  /-- "Negative device number requested." -/
  | negativeIndex
  /-- "Invalid device number requested." -/
  | invalidIndex
  /-- "Unable to open device endpoint volume control." -/
  | activation
  /-- "Unable to register master audio endpoint volume callback." -/
  | subscription
  /-- Failure of `GetMute` or `GetMasterVolumeLevelScalar`. -/
  | stateRead
  /-- "Failed to sync master volume to slave device." -/
  | sync
deriving DecidableEq, Repr

/-- Whether an error is the spec's `InvalidIndexError` (either `getDevice`
throw site). -/
def LinkError.isInvalidIndex : LinkError → Bool
  | .negativeIndex => true
  | .invalidIndex => true
  | _ => false

/-- Result of a (possibly throwing) manager operation: the state the object is
left in, the emitted events, and the raised error if any. -/
structure LinkResult where
  state : MgrState
  events : List Event
  error : Option LinkError
deriving DecidableEq, Repr

/-- Microsoft `towlower` restricted to the ASCII range (the program sets the
locale so that the fold is locale-aware; the fold is modelled on the ASCII
range, which covers all names considered here). -/
def towlower (c : Nat) : Nat :=
  if 65 ≤ c ∧ c ≤ 90 then c + 32 else c

/-- `_wcsicmp`: case-insensitive wide-string comparison; negative, zero or
positive according to the order of the first differing folded characters (a
string that ends first compares against the other's character via the
terminating null). -/
def wcsicmp : WStr → WStr → Int
  | [], [] => 0
  | [], b :: _ => 0 - (towlower b : Int)
  | a :: _, [] => (towlower a : Int)
  | a :: as, b :: bs =>
    if towlower a = towlower b then wcsicmp as bs
    else (towlower a : Int) - (towlower b : Int)

/-- The comparator passed to `std::sort` in the constructor:
`_wcsicmp(a.getName(), b.getName()) < 0`. -/
def nameLt (a b : AudioDevice) : Prop :=
  wcsicmp a.name b.name < 0

instance (a b : AudioDevice) : Decidable (nameLt a b) :=
  inferInstanceAs (Decidable (wcsicmp a.name b.name < 0))

/-- The postcondition `std::sort` guarantees for the comparator: each adjacent
pair is in order (the later element is not strictly below the earlier one).
`std::sort` promises nothing beyond this and being a permutation — in
particular not stability. -/
def sortedByNameCI : List AudioDevice → Bool
  | [] => true
  | [_] => true
  | a :: b :: rest => !decide (nameLt b a) && sortedByNameCI (b :: rest)

/-- The relation between the discovery-ordered device list and the catalog the
constructor's `std::sort` call may produce: any permutation of the input that
is sorted for the case-insensitive comparator. -/
def enumSortResult (input output : List AudioDevice) : Prop :=
  output.Perm input ∧ sortedByNameCI output = true

/-- Stability of ties: devices whose names compare equal under the
case-insensitive comparison appear in their discovery order (by
`itemOffset`, the position assigned in the enumeration loop). -/
def stableTies : List AudioDevice → Bool
  | [] => true
  | a :: rest =>
    rest.all (fun b => !decide (wcsicmp a.name b.name = 0) || decide (a.itemOffset ≤ b.itemOffset))
      && stableTies rest

/-- `AudioDeviceManager::getDevice`: negative index throws, then `vector::at`
either returns the element or throws out-of-range (rethrown as the invalid
device number error). A `const` accessor: it reads but never modifies the
catalog. -/
def getDevice (devices : List AudioDevice) (idx : Int) : Except LinkError AudioDevice :=
  if idx < 0 then Except.error LinkError.negativeIndex
  else
    match devices[idx.toNat]? with
    | some d => Except.ok d
    | none => Except.error LinkError.invalidIndex

/-- `MAX_VOL` from helpers.h. -/
def MAX_VOL : Int := 100

/-- C++ `static_cast<ptrdiff_t>` on a real value: truncation toward zero. -/
def truncQ (q : ℚ) : Int :=
  if 0 ≤ q then ⌊q⌋ else ⌈q⌉

/-- The slider-position computation of `AudioDeviceManager::_updateDialog`:
`static_cast<ptrdiff_t>((double)MAX_VOL * f + 0.5)` clamped into
`[0, MAX_VOL]`. -/
def sliderVolume (f : ℚ) : Int :=
  let s := truncQ ((MAX_VOL : ℚ) * f + 1 / 2)
  if s < 0 then 0
  else if s > MAX_VOL then MAX_VOL
  else s

/-- `AudioDeviceManager::_updateDialog`: posts the checkbox state and the
clamped slider position to the dialog, or does nothing when no dialog handle
is attached. The emitted event records the volume/mute arguments delivered to
the observer. -/
def updateDialog (st : MgrState) (v : ℚ) (m : Bool) : List Event :=
  if st.hDialog then [Event.dialogUpdate v m] else []

/-- `AudioDeviceManager::_setSlaveVolume`: no-op success without a slave
handle; otherwise writes volume then mute to the slave handle, each tagged
with the process GUID, returning `false` on the first failure. -/
def setSlaveVolume (env : Env) (st : MgrState) (v : ℚ) (m : Bool) : Bool × List Event :=
  if !st.pSlaveEndptVol then (true, [])
  else if !env.slaveSetVolumeOk then
    (false, [Event.setVolume Target.slave v st.processGUID])
  else if !env.slaveSetMuteOk then
    (false, [Event.setVolume Target.slave v st.processGUID,
             Event.setMute Target.slave m st.processGUID])
  else
    (true, [Event.setVolume Target.slave v st.processGUID,
            Event.setMute Target.slave m st.processGUID])

/-- `AudioDeviceManager::setMasterVolume`: no-op success without a master
handle; otherwise a single volume write to the master handle tagged with the
process GUID, with the success of that write as result. No member is
assigned, so the state is returned unchanged. -/
def setMasterVolume (env : Env) (st : MgrState) (v : ℚ) : MgrState × Bool × List Event :=
  if !st.pMasterEndptVol then (st, true, [])
  else if !env.masterSetVolumeOk then
    (st, false, [Event.setVolume Target.master v st.processGUID])
  else
    (st, true, [Event.setVolume Target.master v st.processGUID])

/-- `AudioDeviceManager::setMasterMute`: same shape as `setMasterVolume` for
the mute write. -/
def setMasterMute (env : Env) (st : MgrState) (m : Bool) : MgrState × Bool × List Event :=
  if !st.pMasterEndptVol then (st, true, [])
  else if !env.masterSetMuteOk then
    (st, false, [Event.setMute Target.master m st.processGUID])
  else
    (st, true, [Event.setMute Target.master m st.processGUID])

/-- `AudioDeviceManager::unlinkDevices`: unregisters the master callback when
a link with a master handle is active (unregistration clears the
subscription), then resets the link flag, both indices and both handles. -/
def unlinkDevices (st : MgrState) : MgrState × List Event :=
  if st.bLinkActive && st.pMasterEndptVol then
    ({ st with bLinkActive := false, iMasterDeviceIdx := -1, iSlaveDeviceIdx := -1,
               pMasterEndptVol := false, pSlaveEndptVol := false, subscribed := false },
     [Event.unregister])
  else
    ({ st with bLinkActive := false, iMasterDeviceIdx := -1, iSlaveDeviceIdx := -1,
               pMasterEndptVol := false, pSlaveEndptVol := false }, [])

/-- `AudioDeviceManager::_onVolumeCallback`: no-op unless linked with both
handles; updates the dialog when the event was not sent by this process;
always relays to the slave; on relay failure with an attached dialog sets the
exit code to 1, shows the message box and posts `WM_CLOSE`. -/
def onVolumeCallback (env : Env) (st : MgrState) (n : NotificationData) :
    MgrState × List Event :=
  if !st.bLinkActive || !st.pMasterEndptVol || !st.pSlaveEndptVol then (st, [])
  else
    let dlgEvents :=
      if n.guidEventContext ≠ st.processGUID then
        updateDialog st n.fMasterVolume n.bMuted
      else []
    let s := setSlaveVolume env st n.fMasterVolume n.bMuted
    if !s.1 && st.hDialog then
      ({ st with exitCode := 1 },
       dlgEvents ++ s.2 ++ [Event.msgBox, Event.postClose])
    else
      (st, dlgEvents ++ s.2)

/-- Lines 149–175 of `AudioDeviceManager::linkDevices`: tear down any existing
link, reject self-links, resolve both indices, activate both endpoint volume
handles, register the change-notification callback, and — immediately after
registration succeeds — set the link flag and both indices. `error = none`
means control reached line 176 with the state as recorded. -/
def linkPhase1 (env : Env) (st : MgrState) (masterIdx slaveIdx : Int) : LinkResult :=
  let u := unlinkDevices st
  let st0 := u.1
  let ev0 := u.2
  if masterIdx = slaveIdx then ⟨st0, ev0, some LinkError.selfLink⟩
  else
    match getDevice st0.audioDevices masterIdx with
    | Except.error e => ⟨st0, ev0, some e⟩
    | Except.ok _ =>
      match getDevice st0.audioDevices slaveIdx with
      | Except.error e => ⟨st0, ev0, some e⟩
      | Except.ok _ =>
        if !env.activateMasterOk then ⟨st0, ev0, some LinkError.activation⟩
        else
          let st1 := { st0 with pMasterEndptVol := true }
          if !env.activateSlaveOk then ⟨st1, ev0, some LinkError.activation⟩
          else
            let st2 := { st1 with pSlaveEndptVol := true }
            if !env.registerOk then ⟨st2, ev0, some LinkError.subscription⟩
            else
              ⟨{ st2 with subscribed := true, bLinkActive := true,
                          iMasterDeviceIdx := masterIdx, iSlaveDeviceIdx := slaveIdx },
               ev0, none⟩

/-- Lines 177–199 of `AudioDeviceManager::linkDevices`: read the master's mute
and volume, apply them to the slave, update the dialog; each failure calls
`unlinkDevices` before throwing. -/
def linkPhase2 (env : Env) (st : MgrState) : LinkResult :=
  match env.getMuteResult with
  | none =>
    let u := unlinkDevices st
    ⟨u.1, u.2, some LinkError.stateRead⟩
  | some bMuted =>
    match env.getVolumeResult with
    | none =>
      let u := unlinkDevices st
      ⟨u.1, u.2, some LinkError.stateRead⟩
    | some fVol =>
      let s := setSlaveVolume env st fVol bMuted
      if !s.1 then
        let u := unlinkDevices st
        ⟨u.1, s.2 ++ u.2, some LinkError.sync⟩
      else
        ⟨st, s.2 ++ updateDialog st fVol bMuted, none⟩

/-- `AudioDeviceManager::linkDevices`, the sequential composition of the two
phases at the program point right after line 175. -/
def linkDevices (env : Env) (st : MgrState) (masterIdx slaveIdx : Int) : LinkResult :=
  let r1 := linkPhase1 env st masterIdx slaveIdx
  match r1.error with
  | some e => ⟨r1.state, r1.events, some e⟩
  | none =>
    let r2 := linkPhase2 env r1.state
    ⟨r2.state, r1.events ++ r2.events, r2.error⟩

/-- The state the `AudioDeviceManager` constructor leaves behind (lines
90–95): no dialog yet, exit code 0, no link, indices `-1`, no handles, no
subscription, with the given catalog. -/
def initState (guid : GUIDToken) (devices : List AudioDevice) : MgrState :=
  { exitCode := 0, processGUID := guid, hDialog := false, audioDevices := devices,
    bLinkActive := false, iMasterDeviceIdx := -1, iSlaveDeviceIdx := -1,
    pMasterEndptVol := false, pSlaveEndptVol := false, subscribed := false }

/-- The manager is Linked: link flag set and both handles present. -/
def Linked (st : MgrState) : Prop :=
  st.bLinkActive = true ∧ st.pMasterEndptVol = true ∧ st.pSlaveEndptVol = true

instance (st : MgrState) : Decidable (Linked st) :=
  inferInstanceAs (Decidable
    (st.bLinkActive = true ∧ st.pMasterEndptVol = true ∧ st.pSlaveEndptVol = true))

/-- Reachable-state invariant: a registered subscription implies an active
link with a live master handle (registration immediately sets the flag, and
every path clearing the flag goes through `unlinkDevices`, which unregisters
under exactly this guard). -/
def StateInv (st : MgrState) : Prop :=
  st.subscribed = true → (st.bLinkActive = true ∧ st.pMasterEndptVol = true)

instance (st : MgrState) : Decidable (StateInv st) :=
  inferInstanceAs (Decidable
    (st.subscribed = true → (st.bLinkActive = true ∧ st.pMasterEndptVol = true)))

def nameSpeakersU : WStr := [83, 112, 101, 97, 107, 101, 114, 115]

def nameSpeakersL : WStr := [115, 112, 101, 97, 107, 101, 114, 115]

def nameHeadphones : WStr := [72, 101, 97, 100, 112, 104, 111, 110, 101, 115]

def devSpeakersU : AudioDevice := ⟨0, [1], nameSpeakersU⟩

def devSpeakersL : AudioDevice := ⟨1, [2], nameSpeakersL⟩

def devHeadphones : AudioDevice := ⟨2, [3], nameHeadphones⟩

def discovered3 : List AudioDevice := [devSpeakersU, devSpeakersL, devHeadphones]

def sortedStable3 : List AudioDevice := [devHeadphones, devSpeakersU, devSpeakersL]

def sortedSwapped3 : List AudioDevice := [devHeadphones, devSpeakersL, devSpeakersU]

def devA : AudioDevice := ⟨0, [10], [65]⟩

def devB : AudioDevice := ⟨1, [11], [66]⟩

def envAllOk : Env :=
  { activateMasterOk := true, activateSlaveOk := true, registerOk := true,
    getMuteResult := some false, getVolumeResult := some (21 / 50),
    slaveSetVolumeOk := true, slaveSetMuteOk := true,
    masterSetVolumeOk := true, masterSetMuteOk := true }

def baseSt : MgrState := initState 7 [devA, devB]

def linkedSt : MgrState :=
  { baseSt with hDialog := true, bLinkActive := true,
                iMasterDeviceIdx := 0, iSlaveDeviceIdx := 1,
                pMasterEndptVol := true, pSlaveEndptVol := true, subscribed := true }


def envRegFail : Env := { envAllOk with registerOk := false }

def envMuteFail : Env := { envAllOk with getMuteResult := none }

def envSlaveFail : Env := { envAllOk with slaveSetVolumeOk := false }

def notifyExternal : NotificationData := ⟨9, 21 / 50, false⟩

def notifySelf : NotificationData := ⟨7, 21 / 50, false⟩

lemma unlink_bLinkActive (st : MgrState) : (unlinkDevices st).1.bLinkActive = false := by
  unfold unlinkDevices
  by_cases h : st.bLinkActive && st.pMasterEndptVol <;> simp [h]

lemma unlink_masterIdx (st : MgrState) : (unlinkDevices st).1.iMasterDeviceIdx = -1 := by
  unfold unlinkDevices
  by_cases h : st.bLinkActive && st.pMasterEndptVol <;> simp [h]

lemma unlink_slaveIdx (st : MgrState) : (unlinkDevices st).1.iSlaveDeviceIdx = -1 := by
  unfold unlinkDevices
  by_cases h : st.bLinkActive && st.pMasterEndptVol <;> simp [h]

lemma unlink_pMaster (st : MgrState) : (unlinkDevices st).1.pMasterEndptVol = false := by
  unfold unlinkDevices
  by_cases h : st.bLinkActive && st.pMasterEndptVol <;> simp [h]

lemma unlink_pSlave (st : MgrState) : (unlinkDevices st).1.pSlaveEndptVol = false := by
  unfold unlinkDevices
  by_cases h : st.bLinkActive && st.pMasterEndptVol <;> simp [h]

lemma unlink_audioDevices (st : MgrState) :
    (unlinkDevices st).1.audioDevices = st.audioDevices := by
  unfold unlinkDevices
  by_cases h : st.bLinkActive && st.pMasterEndptVol <;> simp [h]

lemma unlink_subscribed_false (st : MgrState) (hInv : StateInv st) :
    (unlinkDevices st).1.subscribed = false := by
  cases st with
  | mk ec g dlg devs act mi si pm ps sub =>
    cases act <;> cases pm <;> cases sub <;> simp_all [unlinkDevices, StateInv]

lemma unlink_second_noop (st : MgrState) :
    unlinkDevices (unlinkDevices st).1 = ((unlinkDevices st).1, []) := by
  cases st with
  | mk ec g dlg devs act mi si pm ps sub =>
    cases act <;> cases pm <;> simp [unlinkDevices]

lemma truncQ_clamp (x : ℚ) :
    (if truncQ x < 0 then 0 else if truncQ x > MAX_VOL then MAX_VOL else truncQ x)
    = min MAX_VOL (max 0 ⌊x⌋) := by
  unfold truncQ MAX_VOL
  by_cases h : 0 ≤ x
  · have h0 : 0 ≤ ⌊x⌋ := Int.floor_nonneg.mpr h
    simp only [if_pos h]
    split_ifs <;> omega
  · have hx0 : x < 0 := lt_of_not_le h
    have hceil : ⌈x⌉ ≤ 0 := Int.ceil_le.mpr (by exact_mod_cast hx0.le)
    have hfloor : ⌊x⌋ < 0 := by
      have hq : (⌊x⌋ : ℚ) < 0 := lt_of_le_of_lt (Int.floor_le x) hx0
      exact_mod_cast hq
    simp only [if_neg h]
    split_ifs <;> omega

lemma sliderVolume_eq_clamped_floor (q : ℚ) :
    sliderVolume q = min MAX_VOL (max 0 ⌊(MAX_VOL : ℚ) * q + 1 / 2⌋) :=
  truncQ_clamp ((MAX_VOL : ℚ) * q + 1 / 2)

/-- C9: for every volume scalar (modelled as an exact rational), the slider
position computed by `_updateDialog` equals `round(scalar * MAX_VOL)` with
halves rounded up (`⌊100·q + 1/2⌋`), clamped to `[0, 100]`; in particular
scalar 0.505 maps to 51, 0.0 maps to 0, and 1.0 maps to 100. -/
theorem sliderVolume_round_half_up_clamped :
    (∀ q : ℚ, sliderVolume q = min MAX_VOL (max 0 ⌊(MAX_VOL : ℚ) * q + 1 / 2⌋))
    ∧ sliderVolume (101 / 200) = 51
    ∧ sliderVolume 0 = 0
    ∧ sliderVolume 1 = 100 := by
  refine ⟨sliderVolume_eq_clamped_floor, ?_, ?_, ?_⟩
  · rw [sliderVolume_eq_clamped_floor]
    norm_num [MAX_VOL]
  · rw [sliderVolume_eq_clamped_floor]
    norm_num [MAX_VOL]
  · rw [sliderVolume_eq_clamped_floor]
    norm_num [MAX_VOL]

/-- C8: `getDevice` fails (with one of the two invalid-index errors) exactly
when the index is negative or at least the catalog size, and otherwise
returns the device at that position of the sorted sequence; being a pure
read, it leaves the catalog untouched. -/
theorem getDevice_bounds (devices : List AudioDevice) (idx : Int) :
    ((idx < 0 ∨ (devices.length : Int) ≤ idx) →
      ∃ e, getDevice devices idx = Except.error e ∧ e.isInvalidIndex = true)
    ∧ (0 ≤ idx → idx < (devices.length : Int) →
      ∃ d, getDevice devices idx = Except.ok d ∧ devices[idx.toNat]? = some d) := by
  constructor
  · intro h
    by_cases hneg : idx < 0
    · exact ⟨LinkError.negativeIndex, by simp [getDevice, hneg], rfl⟩
    · have hge : (devices.length : Int) ≤ idx := h.resolve_left hneg
      have hlen : devices.length ≤ idx.toNat := by omega
      refine ⟨LinkError.invalidIndex, ?_, rfl⟩
      simp [getDevice, hneg, List.getElem?_eq_none hlen]
  · intro h1 h2
    have hlt : idx.toNat < devices.length := by omega
    exact ⟨devices[idx.toNat],
      by simp [getDevice, not_lt.mpr h1, List.getElem?_eq_getElem hlt],
      List.getElem?_eq_getElem hlt⟩

/-- C8 witness: index 5 on a two-element catalog fails with an invalid-index
error, and index 1 returns the device at position 1. -/
theorem getDevice_bounds_witness :
    (∃ e, getDevice [devA, devB] 5 = Except.error e ∧ e.isInvalidIndex = true)
    ∧ (∃ d, getDevice [devA, devB] 1 = Except.ok d ∧ [devA, devB][(1 : Int).toNat]? = some d) :=
  ⟨(getDevice_bounds [devA, devB] 5).1 (Or.inr (by decide)),
   (getDevice_bounds [devA, devB] 1).2 (by decide) (by decide)⟩

/-- C6: `unlinkDevices` never fails (it is a total `noexcept` function) and
for every state leaves the controller Unlinked with both indices reset to -1
and both handles released; applying it again is a no-op (and emits no
events), so composing it with itself equals a single application. -/
theorem unlinkDevices_idempotent_safe (st : MgrState) :
    (unlinkDevices st).1.bLinkActive = false
    ∧ (unlinkDevices st).1.iMasterDeviceIdx = -1
    ∧ (unlinkDevices st).1.iSlaveDeviceIdx = -1
    ∧ (unlinkDevices st).1.pMasterEndptVol = false
    ∧ (unlinkDevices st).1.pSlaveEndptVol = false
    ∧ unlinkDevices (unlinkDevices st).1 = ((unlinkDevices st).1, []) :=
  ⟨unlink_bLinkActive st, unlink_masterIdx st, unlink_slaveIdx st,
   unlink_pMaster st, unlink_pSlave st, unlink_second_noop st⟩

/-- C6 witness: the theorem applied to a fully linked state. -/
theorem unlinkDevices_idempotent_safe_witness :
    (unlinkDevices linkedSt).1.bLinkActive = false
    ∧ (unlinkDevices linkedSt).1.iMasterDeviceIdx = -1
    ∧ (unlinkDevices linkedSt).1.iSlaveDeviceIdx = -1
    ∧ (unlinkDevices linkedSt).1.pMasterEndptVol = false
    ∧ (unlinkDevices linkedSt).1.pSlaveEndptVol = false
    ∧ unlinkDevices (unlinkDevices linkedSt).1 = ((unlinkDevices linkedSt).1, []) :=
  unlinkDevices_idempotent_safe linkedSt

/-- C7: for every index `i` (valid or not) and every starting state,
`linkDevices i i` fails with the self-link error, having first torn down any
existing link, and leaves the controller Unlinked with indices reset and
handles released — the self-link check precedes index resolution, so this
holds for out-of-range `i` too. -/
theorem selfLink_always_rejected (env : Env) (st : MgrState) (i : Int) :
    (linkDevices env st i i).error = some LinkError.selfLink
    ∧ (linkDevices env st i i).state = (unlinkDevices st).1
    ∧ (linkDevices env st i i).state.bLinkActive = false
    ∧ (linkDevices env st i i).state.iMasterDeviceIdx = -1
    ∧ (linkDevices env st i i).state.iSlaveDeviceIdx = -1
    ∧ (linkDevices env st i i).state.pMasterEndptVol = false
    ∧ (linkDevices env st i i).state.pSlaveEndptVol = false := by
  have hstate : linkDevices env st i i =
      ⟨(unlinkDevices st).1, (unlinkDevices st).2, some LinkError.selfLink⟩ := by
    unfold linkDevices linkPhase1
    simp
  rw [hstate]
  exact ⟨rfl, rfl, unlink_bLinkActive st, unlink_masterIdx st, unlink_slaveIdx st,
    unlink_pMaster st, unlink_pSlave st⟩

/-- C7 witness: self-linking index 1 from a linked state. -/
theorem selfLink_always_rejected_witness :
    (linkDevices envAllOk linkedSt 1 1).error = some LinkError.selfLink
    ∧ (linkDevices envAllOk linkedSt 1 1).state = (unlinkDevices linkedSt).1
    ∧ (linkDevices envAllOk linkedSt 1 1).state.bLinkActive = false
    ∧ (linkDevices envAllOk linkedSt 1 1).state.iMasterDeviceIdx = -1
    ∧ (linkDevices envAllOk linkedSt 1 1).state.iSlaveDeviceIdx = -1
    ∧ (linkDevices envAllOk linkedSt 1 1).state.pMasterEndptVol = false
    ∧ (linkDevices envAllOk linkedSt 1 1).state.pSlaveEndptVol = false :=
  selfLink_always_rejected envAllOk linkedSt 1

lemma perm_three_cases {x y z : AudioDevice} {l : List AudioDevice}
    (h : l.Perm [x, y, z]) (hxy : x ≠ y) (hxz : x ≠ z) (hyz : y ≠ z) :
    l = [x, y, z] ∨ l = [x, z, y] ∨ l = [y, x, z] ∨ l = [y, z, x]
      ∨ l = [z, x, y] ∨ l = [z, y, x] := by
  have hlen : l.length = 3 := by simpa using h.length_eq
  obtain ⟨a, b, c, rfl⟩ : ∃ a b c, l = [a, b, c] := by
    rcases l with _ | ⟨a, _ | ⟨b, _ | ⟨c, _ | ⟨d, tl⟩⟩⟩⟩ <;> simp_all
  have hnd : List.Nodup [a, b, c] := h.symm.nodup (by simp [hxy, hxz, hyz])
  have ha : a ∈ [x, y, z] := h.subset (by simp)
  have hb : b ∈ [x, y, z] := h.subset (by simp)
  have hc : c ∈ [x, y, z] := h.subset (by simp)
  simp only [List.mem_cons, List.mem_singleton, List.not_mem_nil, or_false] at ha hb hc
  rcases ha with rfl | rfl | rfl <;> rcases hb with rfl | rfl | rfl <;>
    rcases hc with rfl | rfl | rfl <;> simp_all

/-- C5 counterexample: on the spec's mixed-case discovery list
["Speakers", "speakers", "Headphones"], the output that puts "speakers"
(discovered second) before "Speakers" (discovered first) satisfies everything
`std::sort` guarantees for the constructor's comparator — it is a sorted
permutation — yet it does not keep the equal-named devices in discovery
order, so the claimed stable tie-break is not a property of the code
(`std::sort` is not a stable sort). -/
theorem sort_stability_counterexample :
    enumSortResult discovered3 sortedSwapped3 ∧ stableTies sortedSwapped3 = false :=
  ⟨⟨(by decide : discovered3.reverse = sortedSwapped3) ▸ List.reverse_perm discovered3,
    by decide⟩, by decide⟩

/-- C5 amended: every enumeration result is a permutation of the discovered
devices that is sorted ascending by display name under the case-insensitive
comparison, but the relative order of devices with equal names is not
specified (`std::sort` is not stable): for the spec's three-device example
the admissible catalogs are exactly the two case-insensitively sorted orders,
one keeping and one reversing the discovery order of the equal names. -/
theorem sort_case_insensitive_ties_unspecified (output : List AudioDevice) :
    enumSortResult discovered3 output ↔ (output = sortedStable3 ∨ output = sortedSwapped3) := by
  constructor
  · rintro ⟨hperm, hsorted⟩
    have h6 := @perm_three_cases devSpeakersU devSpeakersL devHeadphones output
      hperm (by decide) (by decide) (by decide)
    rcases h6 with rfl | rfl | rfl | rfl | rfl | rfl <;>
      first
        | exact Or.inl rfl
        | exact Or.inr rfl
        | exact absurd hsorted (by decide)
  · rintro (rfl | rfl)
    · exact ⟨@List.perm_append_comm _ [devHeadphones] [devSpeakersU, devSpeakersL],
        by decide⟩
    · exact ⟨(by decide : discovered3.reverse = sortedSwapped3) ▸ List.reverse_perm discovered3,
        by decide⟩

/-- C5 amended witness: the stable order is an admissible enumeration
result, and conversely. -/
theorem sort_case_insensitive_ties_unspecified_witness :
    sortedStable3 = sortedStable3 ∨ sortedStable3 = sortedSwapped3 :=
  (sort_case_insensitive_ties_unspecified sortedStable3).mp
    ⟨@List.perm_append_comm _ [devHeadphones] [devSpeakersU, devSpeakersL],
      by decide⟩

/-- C10: `setMasterVolume` and `setMasterMute` change no controller state at
all (link flag, indices, handles, catalog, exit code all untouched), and
every write they emit is a single write to the master handle carrying the
unclamped scalar (resp. the mute flag) together with the controller's own
correlation token — in particular they never write the slave handle. -/
theorem master_setters_frame (env : Env) (st : MgrState) (v : ℚ) (m : Bool) :
    ((setMasterVolume env st v).1 = st
      ∧ ∀ e ∈ (setMasterVolume env st v).2.2, e = Event.setVolume Target.master v st.processGUID)
    ∧ ((setMasterMute env st m).1 = st
      ∧ ∀ e ∈ (setMasterMute env st m).2.2, e = Event.setMute Target.master m st.processGUID) := by
  constructor
  · unfold setMasterVolume
    by_cases h1 : st.pMasterEndptVol <;> by_cases h2 : env.masterSetVolumeOk <;>
      simp [h1, h2]
  · unfold setMasterMute
    by_cases h1 : st.pMasterEndptVol <;> by_cases h2 : env.masterSetMuteOk <;>
      simp [h1, h2]

/-- C10 witness: the theorem applied to the linked example state with an
out-of-range scalar 2 (passed through unclamped). -/
theorem master_setters_frame_witness :
    ((setMasterVolume envAllOk linkedSt 2).1 = linkedSt
      ∧ ∀ e ∈ (setMasterVolume envAllOk linkedSt 2).2.2,
          e = Event.setVolume Target.master 2 linkedSt.processGUID)
    ∧ ((setMasterMute envAllOk linkedSt true).1 = linkedSt
      ∧ ∀ e ∈ (setMasterMute envAllOk linkedSt true).2.2,
          e = Event.setMute Target.master true linkedSt.processGUID) :=
  master_setters_frame envAllOk linkedSt 2 true

/-- C1: while Linked (with the observer dialog attached), the
change-notification handler always invokes the slave relay with exactly the
notification's volume (and, when the volume write went through, its mute
flag), tagged with the controller's own token — regardless of the event's
correlation token; and it signals the external observer with the
notification's volume and mute values if and only if the event's correlation
token differs from the controller's own process token. -/
theorem callback_relays_and_signals (env : Env) (st : MgrState) (n : NotificationData)
    (hL : Linked st) (hD : st.hDialog = true) :
    Event.setVolume Target.slave n.fMasterVolume st.processGUID ∈ (onVolumeCallback env st n).2
    ∧ (env.slaveSetVolumeOk = true →
        Event.setMute Target.slave n.bMuted st.processGUID ∈ (onVolumeCallback env st n).2)
    ∧ (Event.dialogUpdate n.fMasterVolume n.bMuted ∈ (onVolumeCallback env st n).2
        ↔ n.guidEventContext ≠ st.processGUID) := by
  obtain ⟨h1, h2, h3⟩ := hL
  unfold onVolumeCallback setSlaveVolume updateDialog
  by_cases hg : n.guidEventContext = st.processGUID <;>
    by_cases hv : env.slaveSetVolumeOk <;>
      by_cases hm : env.slaveSetMuteOk <;>
        simp [h1, h2, h3, hD, hg, hv, hm]

/-- C1 witness: an externally-originated notification (token 9 against
process token 7) at volume 0.42, unmuted, on the linked example state. -/
theorem callback_relays_and_signals_witness :
    (Event.setVolume Target.slave notifyExternal.fMasterVolume linkedSt.processGUID
        ∈ (onVolumeCallback envAllOk linkedSt notifyExternal).2
      ∧ (envAllOk.slaveSetVolumeOk = true →
          Event.setMute Target.slave notifyExternal.bMuted linkedSt.processGUID
            ∈ (onVolumeCallback envAllOk linkedSt notifyExternal).2)
      ∧ (Event.dialogUpdate notifyExternal.fMasterVolume notifyExternal.bMuted
            ∈ (onVolumeCallback envAllOk linkedSt notifyExternal).2
          ↔ notifyExternal.guidEventContext ≠ linkedSt.processGUID))
    ∧ (Event.setVolume Target.slave notifySelf.fMasterVolume linkedSt.processGUID
        ∈ (onVolumeCallback envAllOk linkedSt notifySelf).2
      ∧ (envAllOk.slaveSetVolumeOk = true →
          Event.setMute Target.slave notifySelf.bMuted linkedSt.processGUID
            ∈ (onVolumeCallback envAllOk linkedSt notifySelf).2)
      ∧ (Event.dialogUpdate notifySelf.fMasterVolume notifySelf.bMuted
            ∈ (onVolumeCallback envAllOk linkedSt notifySelf).2
          ↔ notifySelf.guidEventContext ≠ linkedSt.processGUID)) :=
  ⟨callback_relays_and_signals envAllOk linkedSt notifyExternal (by decide) rfl,
   callback_relays_and_signals envAllOk linkedSt notifySelf (by decide) rfl⟩

/-- C4 counterexample: with no dialog attached, a failing slave relay on a
Linked controller is silently dropped — the exit code stays 0 and no
session-termination request (nor message box) is issued, contradicting the
claim that the fatal-error report is unconditional. -/
theorem relay_failure_silent_without_dialog :
    Linked { linkedSt with hDialog := false }
    ∧ (setSlaveVolume envSlaveFail { linkedSt with hDialog := false }
        notifyExternal.fMasterVolume notifyExternal.bMuted).1 = false
    ∧ (onVolumeCallback envSlaveFail { linkedSt with hDialog := false } notifyExternal).1.exitCode = 0
    ∧ Event.postClose ∉ (onVolumeCallback envSlaveFail { linkedSt with hDialog := false } notifyExternal).2
    ∧ Event.msgBox ∉ (onVolumeCallback envSlaveFail { linkedSt with hDialog := false } notifyExternal).2 :=
  ⟨by decide, by decide, by decide, by decide, by decide⟩

/-- C4 amended: whenever relaying a change-notification to the slave fails
while Linked and a dialog is attached, the controller sets its exit code to 1
and posts the session-termination request (plus the fatal-error message box);
without an attached dialog the failure is dropped. -/
theorem relay_failure_fatal_with_dialog (env : Env) (st : MgrState) (n : NotificationData)
    (hL : Linked st) (hD : st.hDialog = true)
    (hfail : env.slaveSetVolumeOk = false ∨ env.slaveSetMuteOk = false) :
    (onVolumeCallback env st n).1.exitCode = 1
    ∧ Event.postClose ∈ (onVolumeCallback env st n).2
    ∧ Event.msgBox ∈ (onVolumeCallback env st n).2 := by
  obtain ⟨h1, h2, h3⟩ := hL
  unfold onVolumeCallback setSlaveVolume updateDialog
  rcases hfail with hf | hf <;>
    by_cases hg : n.guidEventContext = st.processGUID <;>
      by_cases hv : env.slaveSetVolumeOk <;>
        by_cases hm : env.slaveSetMuteOk <;>
          simp_all [h1, h2, h3, hD, hg]

/-- C4 amended witness: failing slave volume write, dialog attached. -/
theorem relay_failure_fatal_with_dialog_witness :
    (onVolumeCallback envSlaveFail linkedSt notifyExternal).1.exitCode = 1
    ∧ Event.postClose ∈ (onVolumeCallback envSlaveFail linkedSt notifyExternal).2
    ∧ Event.msgBox ∈ (onVolumeCallback envSlaveFail linkedSt notifyExternal).2 :=
  relay_failure_fatal_with_dialog envSlaveFail linkedSt notifyExternal
    (by decide) rfl (Or.inl rfl)

lemma unlink_subscribed_false_of_guard (st : MgrState)
    (h1 : st.bLinkActive = true) (h2 : st.pMasterEndptVol = true) :
    (unlinkDevices st).1.subscribed = false := by
  unfold unlinkDevices
  simp [h1, h2]

lemma linkPhase1_error_state (env : Env) (st : MgrState) (m s : Int)
    (h : (linkPhase1 env st m s).error.isSome = true) :
    (linkPhase1 env st m s).state.bLinkActive = false
    ∧ (linkPhase1 env st m s).state.iMasterDeviceIdx = -1
    ∧ (linkPhase1 env st m s).state.iSlaveDeviceIdx = -1
    ∧ (linkPhase1 env st m s).state.subscribed = (unlinkDevices st).1.subscribed := by
  unfold linkPhase1 at h ⊢
  by_cases hms : m = s
  · simp [hms, unlink_bLinkActive, unlink_masterIdx, unlink_slaveIdx]
  · cases hM : getDevice (unlinkDevices st).1.audioDevices m with
    | error e => simp [hms, hM, unlink_bLinkActive, unlink_masterIdx, unlink_slaveIdx]
    | ok dm =>
      cases hS : getDevice (unlinkDevices st).1.audioDevices s with
      | error e => simp [hms, hM, hS, unlink_bLinkActive, unlink_masterIdx, unlink_slaveIdx]
      | ok ds =>
        by_cases h2 : env.activateMasterOk <;> by_cases h3 : env.activateSlaveOk <;>
          by_cases h4 : env.registerOk <;>
            simp [hms, hM, hS, h2, h3, h4,
              unlink_bLinkActive, unlink_masterIdx, unlink_slaveIdx] at h ⊢

lemma linkPhase1_ok_state (env : Env) (st : MgrState) (m s : Int)
    (h : (linkPhase1 env st m s).error = none) :
    (linkPhase1 env st m s).state.bLinkActive = true
    ∧ (linkPhase1 env st m s).state.pMasterEndptVol = true
    ∧ (linkPhase1 env st m s).state.pSlaveEndptVol = true
    ∧ (linkPhase1 env st m s).state.iMasterDeviceIdx = m
    ∧ (linkPhase1 env st m s).state.iSlaveDeviceIdx = s := by
  unfold linkPhase1 at h ⊢
  by_cases hms : m = s
  · simp [hms] at h
  · cases hM : getDevice (unlinkDevices st).1.audioDevices m with
    | error e => simp [hms, hM] at h
    | ok dm =>
      cases hS : getDevice (unlinkDevices st).1.audioDevices s with
      | error e => simp [hms, hM, hS] at h
      | ok ds =>
        by_cases h2 : env.activateMasterOk <;> by_cases h3 : env.activateSlaveOk <;>
          by_cases h4 : env.registerOk <;>
            simp [hms, hM, hS, h2, h3, h4] at h ⊢

lemma linkPhase2_ok_state (env : Env) (st : MgrState)
    (h : (linkPhase2 env st).error = none) :
    (linkPhase2 env st).state = st := by
  unfold linkPhase2 at h ⊢
  cases hm : env.getMuteResult with
  | none => simp [hm] at h
  | some b =>
    cases hv : env.getVolumeResult with
    | none => simp [hm, hv] at h
    | some q =>
      by_cases hs : (setSlaveVolume env st q b).1 <;> simp [hm, hv, hs] at h ⊢

lemma linkPhase2_error_state (env : Env) (st : MgrState)
    (h : (linkPhase2 env st).error.isSome = true) :
    (linkPhase2 env st).state = (unlinkDevices st).1 := by
  unfold linkPhase2 at h ⊢
  cases hm : env.getMuteResult with
  | none => simp [hm]
  | some b =>
    cases hv : env.getVolumeResult with
    | none => simp [hm, hv]
    | some q =>
      by_cases hs : (setSlaveVolume env st q b).1 <;> simp [hm, hv, hs] at h ⊢

lemma linkDevices_error_cases (env : Env) (st : MgrState) (m s : Int)
    (h : (linkDevices env st m s).error.isSome = true) :
    ((linkPhase1 env st m s).error.isSome = true
      ∧ (linkDevices env st m s).state = (linkPhase1 env st m s).state)
    ∨ ((linkPhase1 env st m s).error = none
      ∧ (linkPhase2 env (linkPhase1 env st m s).state).error.isSome = true
      ∧ (linkDevices env st m s).state = (linkPhase2 env (linkPhase1 env st m s).state).state) := by
  unfold linkDevices at h ⊢
  cases h1 : (linkPhase1 env st m s).error with
  | some e => exact Or.inl ⟨by simp [h1], by simp [h1]⟩
  | none =>
    refine Or.inr ⟨rfl, ?_, by simp [h1]⟩
    simp only [h1] at h
    exact h

/-- C2 counterexample: when callback registration fails, `linkDevices` throws
the subscription error without calling `unlinkDevices` first, so the two
volume handles opened just before remain held by the controller — they are
not released as the claim states (they are only cleared by the next
`unlinkDevices`/`linkDevices` call or destruction). -/
theorem subscription_failure_keeps_handles :
    (linkDevices envRegFail baseSt 0 1).error = some LinkError.subscription
    ∧ (linkDevices envRegFail baseSt 0 1).state.pMasterEndptVol = true
    ∧ (linkDevices envRegFail baseSt 0 1).state.pSlaveEndptVol = true :=
  ⟨by decide, by decide, by decide⟩

/-- C2 amended: after any failed `linkDevices` call (whatever step failed,
starting from any reachable state), the controller is Unlinked — link flag
false, no subscription registered, both indices reset to -1; however the
volume handles opened before a slave-activation or subscription-registration
failure are retained rather than released at throw time. -/
theorem failed_link_rollback (env : Env) (st : MgrState) (m s : Int)
    (hInv : StateInv st) (hfail : (linkDevices env st m s).error.isSome = true) :
    (linkDevices env st m s).state.bLinkActive = false
    ∧ (linkDevices env st m s).state.subscribed = false
    ∧ (linkDevices env st m s).state.iMasterDeviceIdx = -1
    ∧ (linkDevices env st m s).state.iSlaveDeviceIdx = -1 := by
  rcases linkDevices_error_cases env st m s hfail with ⟨h1, hst⟩ | ⟨h1, h2, hst⟩
  · obtain ⟨ha, hb, hc, hd⟩ := linkPhase1_error_state env st m s h1
    rw [hst]
    exact ⟨ha, by rw [hd]; exact unlink_subscribed_false st hInv, hb, hc⟩
  · obtain ⟨ha, hbm, _, _, _⟩ := linkPhase1_ok_state env st m s h1
    rw [hst, linkPhase2_error_state env _ h2]
    exact ⟨unlink_bLinkActive _, unlink_subscribed_false_of_guard _ ha hbm,
      unlink_masterIdx _, unlink_slaveIdx _⟩

/-- C2 amended witness: the subscription-failure run, started from the
freshly constructed state (which satisfies the reachability invariant). -/
theorem failed_link_rollback_witness :
    (linkDevices envRegFail baseSt 0 1).state.bLinkActive = false
    ∧ (linkDevices envRegFail baseSt 0 1).state.subscribed = false
    ∧ (linkDevices envRegFail baseSt 0 1).state.iMasterDeviceIdx = -1
    ∧ (linkDevices envRegFail baseSt 0 1).state.iSlaveDeviceIdx = -1 :=
  failed_link_rollback envRegFail baseSt 0 1 (by decide) (by decide)

/-- C3 counterexample: with the master state read (`GetMute`) failing, the
commit point of lines 172–175 has already been passed with `error = none`
and the link flag already true, i.e. the state-read and initial-sync steps
run with the controller marked Linked; the overall call then fails and rolls
back — so "transitions to Linked only after every step has succeeded" does
not describe the code's intermediate states. -/
theorem linked_marked_before_state_read :
    (linkPhase1 envMuteFail baseSt 0 1).error = none
    ∧ (linkPhase1 envMuteFail baseSt 0 1).state.bLinkActive = true
    ∧ (linkDevices envMuteFail baseSt 0 1).error = some LinkError.stateRead
    ∧ (linkDevices envMuteFail baseSt 0 1).state.bLinkActive = false :=
  ⟨by decide, by decide, by decide, by decide⟩

/-- C3 amended: the controller is marked Linked (flag and indices set)
immediately after subscription registration succeeds — before the master
state read and the initial slave sync, which therefore execute with the
controller already marked Linked; if one of those later steps fails the
controller is torn back down before the error surfaces, so on return
`linkDevices` leaves the controller Linked exactly when the call
succeeded. -/
theorem link_commit_and_rollback (env : Env) (st : MgrState) (m s : Int) :
    ((linkPhase1 env st m s).error = none →
      (linkPhase1 env st m s).state.bLinkActive = true
      ∧ (linkPhase1 env st m s).state.iMasterDeviceIdx = m
      ∧ (linkPhase1 env st m s).state.iSlaveDeviceIdx = s)
    ∧ ((linkDevices env st m s).error = none →
      (linkDevices env st m s).state.bLinkActive = true
      ∧ (linkDevices env st m s).state.iMasterDeviceIdx = m
      ∧ (linkDevices env st m s).state.iSlaveDeviceIdx = s)
    ∧ ((linkDevices env st m s).error.isSome = true →
      (linkDevices env st m s).state.bLinkActive = false) := by
  refine ⟨?_, ?_, ?_⟩
  · intro h
    obtain ⟨a, _, _, d, e⟩ := linkPhase1_ok_state env st m s h
    exact ⟨a, d, e⟩
  · intro h
    unfold linkDevices at h ⊢
    cases h1 : (linkPhase1 env st m s).error with
    | some e => simp [h1] at h
    | none =>
      simp only [h1] at h ⊢
      rw [linkPhase2_ok_state env _ h]
      obtain ⟨a, _, _, d, e⟩ := linkPhase1_ok_state env st m s h1
      exact ⟨a, d, e⟩
  · intro h
    rcases linkDevices_error_cases env st m s h with ⟨h1, hst⟩ | ⟨h1, h2, hst⟩
    · rw [hst]
      exact (linkPhase1_error_state env st m s h1).1
    · rw [hst, linkPhase2_error_state env _ h2]
      exact unlink_bLinkActive _

/-- C3 amended witness: a successful registration marks the commit-point
state Linked with the requested indices. -/
theorem link_commit_and_rollback_witness :
    (linkPhase1 envAllOk baseSt 0 1).state.bLinkActive = true
    ∧ (linkPhase1 envAllOk baseSt 0 1).state.iMasterDeviceIdx = 0
    ∧ (linkPhase1 envAllOk baseSt 0 1).state.iSlaveDeviceIdx = 1 :=
  (link_commit_and_rollback envAllOk baseSt 0 1).1 (by decide)
